import Mathlib

/-!
Verification of `UnityMcpServer/src/config.py` (unity-mcp).

The module has two parts:
* `get_unity_port()` — reads `unity-port.txt`, strips the content, and if the
  stripped string passes Python's `str.isdigit` parses it with `int(...)`;
  every exception raised inside the `try` block is absorbed by a broad
  `except Exception` clause and the default port 6400 is returned.
* `ServerConfig` — a dataclass whose `unity_port` field uses
  `field(default_factory=get_unity_port)` and whose other fields are fixed
  literals; the module ends with the single global `config = ServerConfig()`.

The embedding models file contents abstractly at the granularity the Python
string operations distinguish:
* `PyChar.dec d ascii` — a Unicode decimal digit (category Nd) of value `d`;
  `str.isdigit` is true on it and `int(...)` accepts it (Python's `int`
  accepts every Nd digit, ASCII or not); the `ascii` flag records whether the
  character is one of the ASCII digits `0`-`9`.
* `PyChar.digitOnly` — a character such as the superscript two, for which
  `str.isdigit` is true (Numeric_Type = Digit) but `int(...)` raises
  `ValueError` because it is not an Nd digit.
* `PyChar.space` — a whitespace character, removed by `str.strip`.
* `PyChar.other` — any other character (letters, signs, punctuation):
  `str.isdigit` is false on it.

The file state seen by `get_unity_port` is `missing` (the
`os.path.exists` test fails), `readError` (the file exists but `open`/`read`
raises), or `content s` (the full text read from the file).
-/

namespace UnityMcp

/-- Abstract character classes of a Python string, at the granularity
distinguished by `str.strip`, `str.isdigit` and `int(...)`. -/
inductive PyChar where
  | dec (d : Fin 10) (ascii : Bool)
  | digitOnly
  | space
  | other
deriving DecidableEq

/-- A Python string is modelled as the list of its character classes. -/
abbrev PyString := List PyChar

/-- Exceptions that the body of the `try` block in `get_unity_port` can
raise: an OS error from `open`/`read`, or `ValueError` from `int(...)`. -/
inductive PyError where
  | ioError
  | valueError
deriving DecidableEq

/-- The diagnostic lines printed by `get_unity_port`. -/
inductive LogLine where
  | readPort (n : Nat)
  | errorReading (e : PyError)
  | usingDefault
deriving DecidableEq

/-- State of the override file `unity-port.txt` as observed by one call of
`get_unity_port`. -/
inductive FileState where
  | missing
  | readError
  | content (s : PyString)
deriving DecidableEq

/-- Whether a character is whitespace (stripped by `str.strip`). -/
def isSpaceChar : PyChar → Bool
  | PyChar.space => true
  | _ => false

/-- Python's per-character `str.isdigit` test: true on Nd decimal digits and
on Numeric_Type = Digit characters such as the superscript two. -/
def pyIsDigitChar : PyChar → Bool
  | PyChar.dec _ _ => true
  | PyChar.digitOnly => true
  | _ => false

/-- Whether a character is a Unicode decimal digit (category Nd), i.e. a
character `int(...)` accepts. -/
def isDecChar : PyChar → Bool
  | PyChar.dec _ _ => true
  | _ => false

/-- Whether a character is one of the ASCII digits `0`-`9`. -/
def isAsciiDecChar : PyChar → Bool
  | PyChar.dec _ b => b
  | _ => false

/-- Numeric value of a decimal digit character (0 for non-digits; only ever
applied to digit characters below). -/
def decVal : PyChar → Nat
  | PyChar.dec d _ => (d : Nat)
  | _ => 0

/-- Python `str.strip()`: remove leading and trailing whitespace. -/
def pyStrip (s : PyString) : PyString :=
  ((s.dropWhile isSpaceChar).reverse.dropWhile isSpaceChar).reverse

/-- Python `str.isdigit()`: nonempty and every character passes the
per-character digit test. -/
def pyIsDigit (s : PyString) : Bool :=
  !s.isEmpty && s.all pyIsDigitChar

/-- Base-10 value of a string of decimal digits, most significant first. -/
def decValue (s : PyString) : Nat :=
  s.foldl (fun a c => 10 * a + decVal c) 0

/-- Python `int(...)` on the strings reachable in `get_unity_port` (it is
only applied to strings that passed `isdigit`, so no sign or underscore
handling arises): strip whitespace, then succeed exactly when the rest is a
nonempty string of Nd decimal digits, returning its base-10 value; otherwise
raise `ValueError` (in particular on Numeric_Type = Digit characters that
pass `isdigit`). -/
def pyInt (s : PyString) : Except PyError Nat :=
  let t := pyStrip s
  if !t.isEmpty && t.all isDecChar then Except.ok (decValue t)
  else Except.error PyError.valueError

/-- The body of the `try` block of `get_unity_port`: `Except.error` is a
raised exception, `Except.ok none` means the body fell through without an
early `return` (file missing, or stripped content fails `isdigit`),
`Except.ok (some (port, logs))` is an early `return port` after printing
`logs`. -/
def try_body (fs : FileState) : Except PyError (Option (Nat × List LogLine)) :=
  match fs with
  | FileState.missing => Except.ok none
  | FileState.readError => Except.error PyError.ioError
  | FileState.content s =>
    let port_str := pyStrip s
    if pyIsDigit port_str then
      match pyInt port_str with
      | Except.ok port => Except.ok (some (port, [LogLine.readPort port]))
      | Except.error e => Except.error e
    else Except.ok none

/-- `get_unity_port`: run the `try` body; the broad `except Exception`
clause catches any raised exception, prints the error detail, and control
then reaches the trailing default print and `return 6400`; a fall-through
also reaches the default print and `return 6400`. Returns the port together
with the printed diagnostic lines in order. -/
def get_unity_port (fs : FileState) : Nat × List LogLine :=
  match try_body fs with
  | Except.ok (some r) => r
  | Except.ok none => (6400, [LogLine.usingDefault])
  | Except.error e => (6400, [LogLine.errorReading e, LogLine.usingDefault])

/-- The integer returned by `get_unity_port`. -/
def resolve_unity_port (fs : FileState) : Nat :=
  (get_unity_port fs).1

/-- The diagnostic lines printed by one call of `get_unity_port`. -/
def unity_port_logs (fs : FileState) : List LogLine :=
  (get_unity_port fs).2

/-- `get_unity_port` instrumented with a counter of how many times port
resolution has been performed, to state the construction-count claims. -/
def resolve_unity_port_counted (fs : FileState) (calls : Nat) : Nat × Nat :=
  (resolve_unity_port fs, calls + 1)

/-- The `ServerConfig` dataclass. The two float fields (`86400.0` and `1.0`)
are exactly representable, so they are modelled as rationals. -/
structure ServerConfig where
  unity_host : String
  unity_port : Nat
  mcp_port : Nat
  connection_timeout : Rat
  buffer_size : Nat
  log_level : String
  log_format : String
  max_retries : Nat
  retry_delay : Rat

/-- Constructing `ServerConfig()` with all defaults: `unity_port` comes from
the `default_factory`, which invokes `get_unity_port` (counted), and every
other field takes its literal default from the class body. -/
def build_config (fs : FileState) (calls : Nat) : ServerConfig × Nat :=
  let r := resolve_unity_port_counted fs calls
  ({ unity_host := "localhost"
     unity_port := r.1
     mcp_port := 6500
     connection_timeout := 86400
     buffer_size := 16 * 1024 * 1024
     log_level := "INFO"
     log_format := "%(asctime)s - %(name)s - %(levelname)s - %(message)s"
     max_retries := 3
     retry_delay := 1 }, r.2)

/-- Executing the module top level: the only statement after the class body
is `config = ServerConfig()`, so loading the module performs exactly one
construction starting from a fresh call counter and binds the result to the
global `config`. -/
def module_load (fs : FileState) : ServerConfig × Nat :=
  build_config fs 0

/-- Most-significant-first decimal digits of a natural number (empty for 0). -/
def natToDigits (n : Nat) : List (Fin 10) :=
  if h : n = 0 then []
  else natToDigits (n / 10) ++ [⟨n % 10, Nat.mod_lt n (by norm_num)⟩]
decreasing_by exact Nat.div_lt_self (Nat.pos_of_ne_zero h) (by norm_num)

/-- The file content consisting of the ASCII decimal digits of `n`. -/
def encodeDigits (n : Nat) : PyString :=
  if n = 0 then [PyChar.dec 0 true]
  else (natToDigits n).map (fun d => PyChar.dec d true)

/-- A file content of four Arabic-Indic sevens: Unicode decimal digits that
are not ASCII digits. -/
def arabicSevens : PyString :=
  [PyChar.dec 7 false, PyChar.dec 7 false, PyChar.dec 7 false,
   PyChar.dec 7 false]

/-! ### Helper lemmas -/

theorem pyIsDigitChar_not_space {c : PyChar} (h : pyIsDigitChar c = true) :
    isSpaceChar c = false := by
  cases c <;> simp_all [pyIsDigitChar, isSpaceChar]

theorem isDecChar_isDigit {c : PyChar} (h : isDecChar c = true) :
    pyIsDigitChar c = true := by
  cases c <;> simp_all [isDecChar, pyIsDigitChar]

theorem dropWhile_of_no_space {l : PyString}
    (h : ∀ c ∈ l, isSpaceChar c = false) :
    l.dropWhile isSpaceChar = l := by
  cases l with
  | nil => rfl
  | cons c cs =>
    have hc : isSpaceChar c = false := h c (List.mem_cons_self c cs)
    simp [List.dropWhile_cons, hc]

theorem pyStrip_of_no_space {l : PyString}
    (h : ∀ c ∈ l, isSpaceChar c = false) :
    pyStrip l = l := by
  unfold pyStrip
  rw [dropWhile_of_no_space h]
  rw [dropWhile_of_no_space (fun c hc => h c (List.mem_reverse.mp hc))]
  exact List.reverse_reverse l

theorem pyStrip_of_isDigit {l : PyString} (h : pyIsDigit l = true) :
    pyStrip l = l := by
  apply pyStrip_of_no_space
  intro c hc
  have hall : l.all pyIsDigitChar = true := by
    unfold pyIsDigit at h
    exact (Bool.and_eq_true _ _ |>.mp h).2
  exact pyIsDigitChar_not_space (List.all_eq_true.mp hall c hc)

/-- Full characterization of `get_unity_port` on an existing readable file:
the parsed value when the stripped content is a nonempty string of decimal
digits, 6400 otherwise. -/
theorem resolve_content_eq_ite (s : PyString) :
    resolve_unity_port (FileState.content s) =
      if !(pyStrip s).isEmpty && (pyStrip s).all isDecChar then
        decValue (pyStrip s)
      else 6400 := by
  by_cases hd : pyIsDigit (pyStrip s) = true
  · have ht : pyStrip (pyStrip s) = pyStrip s := pyStrip_of_isDigit hd
    by_cases hdec : (!(pyStrip s).isEmpty && (pyStrip s).all isDecChar) = true
    · simp [resolve_unity_port, get_unity_port, try_body, pyInt, hd, hdec, ht]
    · simp only [Bool.not_eq_true] at hdec
      simp [resolve_unity_port, get_unity_port, try_body, pyInt, hd, hdec, ht]
  · have hne : (!(pyStrip s).isEmpty && (pyStrip s).all isDecChar) = false := by
      rcases Bool.eq_false_or_eq_true (!(pyStrip s).isEmpty
        && (pyStrip s).all isDecChar) with h | h
      · exfalso
        apply hd
        obtain ⟨h1, h2⟩ := Bool.and_eq_true _ _ |>.mp h
        unfold pyIsDigit
        simp only [h1, Bool.true_and, List.all_eq_true]
        intro c hc
        exact isDecChar_isDigit (List.all_eq_true.mp h2 c hc)
      · exact h
    simp only [Bool.not_eq_true] at hd
    simp [resolve_unity_port, get_unity_port, try_body, hd, hne]

theorem decValue_append_digit (l : PyString) (c : PyChar) :
    decValue (l ++ [c]) = 10 * decValue l + decVal c := by
  unfold decValue
  rw [List.foldl_append]
  rfl

theorem decValue_natToDigits (n : Nat) :
    decValue ((natToDigits n).map (fun d => PyChar.dec d true)) = n := by
  induction n using Nat.strong_induction_on with
  | _ n ih =>
    rw [natToDigits]
    by_cases h : n = 0
    · subst h
      rfl
    · rw [dif_neg h, List.map_append, List.map_cons, List.map_nil,
        decValue_append_digit,
        ih (n / 10) (Nat.div_lt_self (Nat.pos_of_ne_zero h) (by norm_num))]
      simp only [decVal]
      omega

theorem encodeDigits_all_dec (n : Nat) :
    (encodeDigits n).all isDecChar = true := by
  unfold encodeDigits
  by_cases h : n = 0
  · simp [h, isDecChar]
  · rw [if_neg h]
    simp [List.all_eq_true, isDecChar]

theorem encodeDigits_isEmpty (n : Nat) :
    (encodeDigits n).isEmpty = false := by
  unfold encodeDigits
  by_cases h : n = 0
  · simp [h]
  · rw [if_neg h, natToDigits, dif_neg h]
    simp

theorem decValue_encodeDigits (n : Nat) : decValue (encodeDigits n) = n := by
  unfold encodeDigits
  by_cases h : n = 0
  · subst h
    rfl
  · rw [if_neg h]
    exact decValue_natToDigits n

/-! ### Claims -/

/-- Claim C1: for every file content `s`, if the content after trimming
leading and trailing whitespace is a nonempty string of decimal digits then
`get_unity_port` returns its integer parse; otherwise (empty content,
non-digit characters, or a sign character) it returns 6400. -/
theorem resolve_content_characterization (s : PyString) :
    resolve_unity_port (FileState.content s) =
      if !(pyStrip s).isEmpty && (pyStrip s).all isDecChar then
        decValue (pyStrip s)
      else 6400 :=
  resolve_content_eq_ite s

/-- Claim C2: `get_unity_port` always returns an integer, and every
exception raised inside the `try` block (I/O failure, `ValueError` from
`int`) is absorbed: the function then returns 6400 instead of propagating
the error to its caller. -/
theorem resolve_absorbs_errors (fs : FileState) :
    (∃ n : Nat, resolve_unity_port fs = n) ∧
      ∀ e : PyError, try_body fs = Except.error e →
        resolve_unity_port fs = 6400 := by
  refine ⟨⟨resolve_unity_port fs, rfl⟩, fun e he => ?_⟩
  simp [resolve_unity_port, get_unity_port, he]

/-- Claim C3: constructing `ServerConfig()` performs exactly one port
resolution (the call counter advances by one) to populate `unity_port`, and
every other field equals its fixed default exactly. -/
theorem build_config_fields (fs : FileState) (calls : Nat) :
    build_config fs calls =
      ({ unity_host := "localhost", unity_port := resolve_unity_port fs,
         mcp_port := 6500, connection_timeout := 86400,
         buffer_size := 16777216, log_level := "INFO",
         log_format := "%(asctime)s - %(name)s - %(levelname)s - %(message)s",
         max_retries := 3, retry_delay := 1 }, calls + 1) := rfl

/-- Claim C5: two successive calls of `get_unity_port` with unchanged file
state return the same value; the only state threaded between the calls is
the instrumentation counter, which advances by two. -/
theorem resolve_idempotent (fs : FileState) (calls : Nat) :
    (resolve_unity_port_counted fs
        ((resolve_unity_port_counted fs calls).2)).1 =
      (resolve_unity_port_counted fs calls).1 ∧
    (resolve_unity_port_counted fs
        ((resolve_unity_port_counted fs calls).2)).2 = calls + 2 :=
  ⟨rfl, rfl⟩

/-- Claim C6: loading the module performs exactly one `ServerConfig`
construction (one port resolution) and the global `config` is exactly that
constructed record; the embedding contains no further write to it. -/
theorem module_load_single_construction (fs : FileState) :
    (module_load fs).2 = 1 ∧
    (module_load fs).1 = (build_config fs 0).1 :=
  ⟨rfl, rfl⟩

/-- Claim C7: `get_unity_port` prints at least one diagnostic line on every
call; the output is either the single success line with the resolved port or
contains the default-port line; and an error-detail line occurs exactly on
the exception path. -/
theorem unity_port_logs_characterization (fs : FileState) :
    unity_port_logs fs ≠ [] ∧
    (unity_port_logs fs = [LogLine.readPort (resolve_unity_port fs)] ∨
      LogLine.usingDefault ∈ unity_port_logs fs) ∧
    ((∃ e, LogLine.errorReading e ∈ unity_port_logs fs) ↔
      ∃ e, try_body fs = Except.error e) := by
  cases fs with
  | missing => simp [unity_port_logs, get_unity_port, try_body]
  | readError => simp [unity_port_logs, get_unity_port, try_body]
  | content s =>
    by_cases hd : pyIsDigit (pyStrip s) = true
    · cases hp : pyInt (pyStrip s) with
      | ok n =>
        refine ⟨?_, ?_, ?_⟩ <;>
          simp [unity_port_logs, resolve_unity_port, get_unity_port,
            try_body, hd, hp]
      | error e =>
        refine ⟨?_, ?_, ?_⟩ <;>
          simp [unity_port_logs, resolve_unity_port, get_unity_port,
            try_body, hd, hp]
    · simp only [Bool.not_eq_true] at hd
      simp [unity_port_logs, get_unity_port, try_body, hd]

/-- Claim C8: no range validation is performed on the parsed value: for
every natural number `n` — including 0 and values above 65535 — a file whose
content is the decimal digits of `n` makes `get_unity_port` return `n`
unchanged. -/
theorem resolve_no_range_check (n : Nat) :
    resolve_unity_port (FileState.content (encodeDigits n)) = n := by
  rw [resolve_content_eq_ite]
  have hs : pyStrip (encodeDigits n) = encodeDigits n := by
    apply pyStrip_of_no_space
    intro c hc
    have hc2 := List.all_eq_true.mp (encodeDigits_all_dec n) c hc
    cases c <;> simp_all [isDecChar, isSpaceChar]
  rw [hs, encodeDigits_isEmpty, encodeDigits_all_dec]
  simp [decValue_encodeDigits]

/-- Claim C9: the digit check accepts non-ASCII Unicode decimal digits —
a file of four Arabic-Indic sevens yields 7777, not the default — while a
character that passes `isdigit` but is rejected by `int` (such as the
superscript two) raises `ValueError` inside the `try` block, which is
absorbed, returning 6400. -/
theorem unicode_digit_behavior :
    resolve_unity_port (FileState.content arabicSevens) = 7777 ∧
    arabicSevens.all (fun c => !isAsciiDecChar c) = true ∧
    pyIsDigit [PyChar.digitOnly] = true ∧
    try_body (FileState.content [PyChar.digitOnly]) =
      Except.error PyError.valueError ∧
    resolve_unity_port (FileState.content [PyChar.digitOnly]) = 6400 :=
  ⟨rfl, rfl, rfl, rfl, rfl⟩

/-- Claim C4: if the override file is absent, `get_unity_port` returns the
default 6400. -/
theorem resolve_missing_default :
    resolve_unity_port FileState.missing = 6400 := rfl

/-- Claim C10: the `log_format` field of every `ServerConfig` constructed
with defaults is exactly the fixed template string. -/
theorem log_format_value (fs : FileState) (calls : Nat) :
    (build_config fs calls).1.log_format =
      "%(asctime)s - %(name)s - %(levelname)s - %(message)s" := rfl

end UnityMcp
